import Mathlib

/-!
Verification of the MedTrack medication tracker (app.js) against its
natural-language specification.

The recurrence engine works on JavaScript `Date` values.  At the granularity
used by `isScheduledOn` (day of week, day of month, month, year, whole-day
differences between local midnights) a `Date` is faithfully represented by the
number of calendar days since 1970-01-01 (an `Int`).  The decoding of a day
number into a proleptic-Gregorian civil date below implements exactly what
`Date#getFullYear/getMonth/getDate/getDay` compute; daylight-saving shifts are
absent from the model, matching the code's use of `Math.round` for the week
difference, which exists precisely to cancel them.

The storage layer (IndexedDB) is modelled as explicit state passing: a
`Storage` holds an optional database (`none` models `this.db === null`, i.e.
setup not finished), the database holds the four collections as lists.  Each
operation returns the new state together with a success flag (promise resolved
vs. rejected); reads return `Except StoreErr` so that the error kind is
visible.
-/

namespace MedTrack

/-- Day of week of an epoch-day number, JavaScript convention 0 = Sunday.
1970-01-01 (day 0) was a Thursday (= 4). -/
def getDay (z : Int) : Int := (z + 4) % 7

/-- Proleptic Gregorian leap-year rule, as used by JavaScript `Date`. -/
def isLeap (y : Int) : Bool := (y % 4 == 0 && y % 100 != 0) || y % 400 == 0

/-- Number of days in month `m` (1..12) of year `y`. -/
def daysInMonth (y m : Int) : Int :=
  if m == 2 then (if isLeap y then 29 else 28)
  else if m == 4 || m == 6 || m == 9 || m == 11 then 30
  else 31

/-- Decode an epoch-day number into a civil date (year, month 1..12, day 1..31),
proleptic Gregorian calendar (standard era-based algorithm). -/
def civilFromDays (z : Int) : Int × Int × Int :=
  let z' := z + 719468
  let era := z' / 146097
  let doe := z' - era * 146097
  let yoe := (doe - doe / 1460 + doe / 36524 - doe / 146096) / 365
  let y := yoe + era * 400
  let doy := doe - (365 * yoe + yoe / 4 - yoe / 100)
  let mp := (5 * doy + 2) / 153
  let d := doy - (153 * mp + 2) / 5 + 1
  let m := if mp < 10 then mp + 3 else mp - 9
  (if m ≤ 2 then y + 1 else y, m, d)

/-- `Date#getFullYear`. -/
def getFullYear (z : Int) : Int := (civilFromDays z).1

/-- Month of an epoch-day number, 1..12.  (JavaScript `getMonth` is 0-based;
the code only compares months for equality and feeds them to the
days-in-month computation, for which the offset is irrelevant.) -/
def getMonth (z : Int) : Int := (civilFromDays z).2.1

/-- `Date#getDate`: day of month, 1..31. -/
def getDate (z : Int) : Int := (civilFromDays z).2.2

/-- Model of `new Date(y, m + 1, 0).getDate()`: the last day of the month
containing `z`. -/
def lastDayOfMonth (z : Int) : Int := daysInMonth (getFullYear z) (getMonth z)

/-- The Monday of the week containing `z` (weeks run Monday..Sunday):
`setDate(getDate() - ((getDay() + 6) % 7))` at day granularity. -/
def mondayOf (z : Int) : Int := z - ((getDay z + 6) % 7)

/-- Monday-aligned week index: floor of the week's Monday divided by 7.
Two dates share a week index exactly when they fall in the same
Monday-to-Sunday week. -/
def weekIndex (z : Int) : Int := mondayOf z / 7

/-- JavaScript `a || b` on an optional number: `undefined` and `0` are falsy. -/
def jsOr (x : Option Int) (y : Int) : Int :=
  match x with
  | some v => if v != 0 then v else y
  | none => y

/-- Recurrence object as stored (duck-typed, mirroring the JSON shape):
a `type` tag plus the fields the various kinds use. -/
structure Recurrence where
  type : String
  days : Option (List Int) := none
  n : Option Int := none
  anchor : Option Int := none
  mode : Option String := none
  dayOfMonth : Option Int := none
  week : Option Int := none
  dow : Option Int := none
deriving DecidableEq, Repr

/-- Medication record.  `days` is the legacy weekly array (no `recurrence`
field); `anchor`/`createdAt` are epoch-day numbers in this model. -/
structure Medication where
  id : String := ""
  personId : String := ""
  name : String := ""
  dosage : String := ""
  frequency : String := "scheduled"
  times : List String := []
  recurrence : Option Recurrence := none
  days : Option (List Int) := none
  notes : Option String := none
  createdAt : Option Int := none
  sortOrder : Int := 0
deriving DecidableEq, Repr

/-- `MedTrackApp.isScheduledOn(med, date)` (app.js lines 1077-1131).
`now` is the ambient clock (`Date.now()`), used only in the anchor fallback
`rec.anchor || med.createdAt || Date.now()`. -/
def isScheduledOn (now : Int) (med : Medication) (z : Int) : Bool :=
  match med.recurrence with
  | none =>
    -- Legacy: old days-array model
    match med.days with
    | none => true
    | some days =>
      if days.length == 0 then true
      else days.contains (getDay z)
  | some rec =>
    if rec.type == "daily" then true
    else if rec.type == "weekly" then
      match rec.days with
      | none => true
      | some days =>
        if days.length == 0 then true
        else days.contains (getDay z)
    else if rec.type == "everyNWeeks" then
      match rec.days with
      | none => false
      | some days =>
        if !(days.contains (getDay z)) then false
        else
          let anchor := jsOr rec.anchor (jsOr med.createdAt now)
          let anchorMonday := mondayOf anchor
          let targetMonday := mondayOf z
          -- Math.round((targetMonday - anchorMonday) / (7 * 86400000)):
          -- both are local midnights, so the quotient is exact at day
          -- granularity and every integer-division convention agrees.
          -- JavaScript % is the truncated remainder, whose zero set is the
          -- same as emod's (both vanish exactly on multiples of n);
          -- n = 0 or missing n gives NaN % and hence false.
          let weeksDiff := (targetMonday - anchorMonday) / 7
          match rec.n with
          | none => false
          | some n => if n == 0 then false else weeksDiff % n == 0
    else if rec.type == "monthly" then
      if rec.mode == some "date" then
        match rec.dayOfMonth with
        | none => false   -- Math.min(undefined, _) is NaN, |x - NaN| <= 1 is false
        | some target =>
          let dom := getDate z
          let lastDay := lastDayOfMonth z
          let effective := min target lastDay
          decide ((dom - effective).natAbs ≤ 1)
      else if rec.mode == some "weekday" then
        if rec.dow != some (getDay z) then false
        else if rec.week == some (-1) then
          -- Last occurrence: adding 7 days crosses into the next month
          !(getMonth (z + 7) == getMonth z)
        else
          -- Math.ceil(d / 7) = floor of (d + 6) / 7 for every integer d
          rec.week == some ((getDate z + 6) / 7)
      else false
    else false

/-- Ascending insertion of an integer into a sorted list. -/
def insertSorted (x : Int) : List Int → List Int
  | [] => [x]
  | y :: ys => if x ≤ y then x :: y :: ys else y :: insertSorted x ys

/-- Numeric ascending sort, modelling `[...days].sort((a, b) => a - b)`. -/
def sortInts : List Int → List Int
  | [] => []
  | x :: xs => insertSorted x (sortInts xs)

/-- The `dayNames` array lookup; out-of-range indices interpolate as the
string `undefined` in JavaScript. -/
def dayName (d : Int) : String :=
  if d == 0 then "Sun" else if d == 1 then "Mon" else if d == 2 then "Tue"
  else if d == 3 then "Wed" else if d == 4 then "Thu" else if d == 5 then "Fri"
  else if d == 6 then "Sat" else "undefined"

/-- The suffix array `s = ['th','st','nd','rd']`; indices outside 0..3
(including negative ones) give `undefined`, modelled as `none`. -/
def ordSuffix (i : Int) : Option String :=
  if i == 0 then some "th" else if i == 1 then some "st"
  else if i == 2 then some "nd" else if i == 3 then some "rd" else none

/-- `MedTrackApp.ordinal(n)`: `n + (s[(v-20)%10] || s[v] || s[0])` with
`v = n % 100` (JavaScript %, i.e. truncated remainder). -/
def ordinal (n : Int) : String :=
  let v := n.tmod 100
  toString n ++ (((ordSuffix ((v - 20).tmod 10)).orElse fun _ => ordSuffix v).getD "th")

/-- Rendering of an optional number inside a template literal:
`undefined` interpolates as the string `undefined`. -/
def optIntStr (x : Option Int) : String :=
  match x with
  | some v => toString v
  | none => "undefined"

/-- `MedTrackApp.getRecurrenceText(med)` (app.js lines 1134-1181). -/
def getRecurrenceText (med : Medication) : String :=
  if med.frequency == "asneeded" then "As needed"
  else
    let timeCount := if med.times.length > 0 then med.times.length else 1
    let tx := if timeCount == 1 then "1×" else toString timeCount ++ "×"
    match med.recurrence with
    | none =>
      -- Legacy days-array
      match med.days with
      | none => tx ++ " daily"
      | some days =>
        if days.length == 0 || days.length == 7 then tx ++ " daily"
        else
          let sorted := sortInts days
          if String.intercalate "," (sorted.map toString) == "1,2,3,4,5" then tx ++ " weekdays"
          else if String.intercalate "," (sorted.map toString) == "0,6" then tx ++ " weekends"
          else tx ++ " · " ++ String.intercalate ", " (sorted.map dayName)
    | some rec =>
      if rec.type == "daily" then tx ++ " daily"
      else if rec.type == "weekly" then
        match rec.days with
        | none => tx ++ " daily"
        | some days =>
          if days.length == 0 || days.length == 7 then tx ++ " daily"
          else
            let sorted := sortInts days
            if String.intercalate "," (sorted.map toString) == "1,2,3,4,5" then tx ++ " weekdays"
            else if String.intercalate "," (sorted.map toString) == "0,6" then tx ++ " weekends"
            else tx ++ " · " ++ String.intercalate ", " (sorted.map dayName)
      else if rec.type == "everyNWeeks" then
        let dayList :=
          match rec.days with
          | some ds =>
            if ds.length != 0 then String.intercalate ", " ((sortInts ds).map dayName) else "—"
          | none => "—"
        tx ++ " every " ++ optIntStr rec.n ++ "wks · " ++ dayList
      else if rec.type == "monthly" then
        if rec.mode == some "date" then
          tx ++ " monthly · " ++
            (match rec.dayOfMonth with
             | some d => ordinal d
             | none => "undefinedth")
        else if rec.mode == some "weekday" then
          let wk :=
            if rec.week == some (-1) then "Last"
            else
              -- ordinals = ['', 'First', 'Second', 'Third', 'Fourth', 'Last'];
              -- ordinals[week] || `${week}.` (index 0 holds '', which is falsy)
              match rec.week with
              | some 1 => "First"
              | some 2 => "Second"
              | some 3 => "Third"
              | some 4 => "Fourth"
              | some 5 => "Last"
              | some w => toString w ++ "."
              | none => "undefined."
          tx ++ " monthly · " ++ wk ++ " " ++
            (match rec.dow with
             | some d => dayName d
             | none => "undefined")
        else tx ++ " scheduled"
      else tx ++ " scheduled"

/-- Person record. -/
structure Person where
  id : String
  name : String
deriving DecidableEq, Repr

/-- Dose-log record; `timestamp` is epoch milliseconds. -/
structure DoseLog where
  id : String
  medicationId : String
  scheduledTime : Option String := none
  timestamp : Int := 0
deriving DecidableEq, Repr

/-- Setting values are booleans or numbers in this app. -/
inductive SVal where
  | b : Bool → SVal
  | n : Int → SVal
deriving DecidableEq, Repr

/-- Setting record, keyed by `id`. -/
structure Setting where
  id : String
  value : SVal
deriving DecidableEq, Repr

/-- The four IndexedDB object stores, keyed by each record's `id`. -/
structure DB where
  people : List Person := []
  medications : List Medication := []
  doseLogs : List DoseLog := []
  settings : List Setting := []
deriving DecidableEq, Repr

/-- Storage handle: `db = none` models `this.db === null`, i.e. `init()` has
not completed. -/
structure Storage where
  db : Option DB := none
deriving DecidableEq, Repr

/-- Storage error kinds (section 7 taxonomy): every primitive rejects with
`notInitialized` when `this.db` is null; `store.add` rejects with
`duplicateKey` on an existing id. -/
inductive StoreErr where
  | notInitialized
  | duplicateKey
deriving DecidableEq, Repr

/-- `MedTrackStorage.getAll(storeName)`: rejects with `NotInitialized` before
setup, otherwise resolves with all records of the collection. -/
def getAllC (s : Storage) (sel : DB → List α) : Except StoreErr (List α) :=
  match s.db with
  | none => .error .notInitialized
  | some d => .ok (sel d)

/-- `MedTrackStorage.getPeople()`. -/
def getPeopleS (s : Storage) : Except StoreErr (List Person) :=
  getAllC s (fun d => d.people)

/-- `MedTrackStorage.getMedications()`. -/
def getMedicationsS (s : Storage) : Except StoreErr (List Medication) :=
  getAllC s (fun d => d.medications)

/-- `MedTrackStorage.getSettings()`. -/
def getSettingsS (s : Storage) : Except StoreErr (List Setting) :=
  getAllC s (fun d => d.settings)

/-- `MedTrackStorage.getDoseLogs()` (app.js lines 148-157): wraps `getAll` in
try/catch and resolves with `[]` on any error. -/
def getDoseLogsS (s : Storage) : Except StoreErr (List DoseLog) :=
  match getAllC s (fun d => d.doseLogs) with
  | .ok logs => .ok logs
  | .error _ => .ok []

/-- `MedTrackStorage.addPerson`: `store.add` rejects on a duplicate key and
appends otherwise.  The Bool is the promise outcome (resolved/rejected);
on rejection the store is unchanged. -/
def addPersonS (s : Storage) (p : Person) : Storage × Bool :=
  match s.db with
  | none => (s, false)
  | some d =>
    if d.people.any (fun x => x.id == p.id) then (s, false)
    else ({ db := some { d with people := d.people ++ [p] } }, true)

/-- `MedTrackStorage.deleteMedication(id)` = `delete('medications', id)`:
removes the record with that key (idempotent), touching nothing else. -/
def deleteMedicationS (s : Storage) (id : String) : Storage × Bool :=
  match s.db with
  | none => (s, false)
  | some d =>
    ({ db := some { d with medications := d.medications.filter (fun m => m.id != id) } }, true)

/-- `MedTrackStorage.clearAllData()`: clears `people`, `medications`,
`doseLogs` in that order (each rejects before setup, leaving state as is). -/
def clearAllDataS (s : Storage) : Storage × Bool :=
  match s.db with
  | none => (s, false)
  | some d =>
    ({ db := some { d with people := [], medications := [], doseLogs := [] } }, true)

/-- Sequential `store.add` of each record, stopping at the first duplicate
key (the rejected promise aborts the `for` loop, records added so far stay). -/
def insertSeq (key : α → String) : List α → List α → List α × Bool
  | coll, [] => (coll, true)
  | coll, r :: rs =>
    if coll.any (fun x => key x == key r) then (coll, false)
    else insertSeq key (coll ++ [r]) rs

/-- An import document as parsed from JSON: each top-level array may be
missing (`none`). -/
structure ImportDoc where
  people : Option (List Person) := none
  medications : Option (List Medication) := none
  doseLogs : Option (List DoseLog) := none
deriving DecidableEq, Repr

/-- `MedTrackStorage.importData(data)` (app.js lines 186-204): clears the
three collections, then re-inserts `data.people`, `data.medications` and,
when present, `data.doseLogs`.  Iterating a missing array throws, which
rejects the promise at that point; the Bool is the promise outcome and the
Storage is the state the database is left in. -/
def importDataS (s : Storage) (doc : ImportDoc) : Storage × Bool :=
  match s.db with
  | none => (s, false)
  | some d =>
    let d0 : DB := { d with people := [], medications := [], doseLogs := [] }
    match doc.people with
    | none => ({ db := some d0 }, false)
    | some ps =>
      let r1 := insertSeq (fun p : Person => p.id) d0.people ps
      let d1 : DB := { d0 with people := r1.1 }
      if !r1.2 then ({ db := some d1 }, false)
      else
        match doc.medications with
        | none => ({ db := some d1 }, false)
        | some ms =>
          let r2 := insertSeq (fun m : Medication => m.id) d1.medications ms
          let d2 : DB := { d1 with medications := r2.1 }
          if !r2.2 then ({ db := some d2 }, false)
          else
            match doc.doseLogs with
            | none => ({ db := some d2 }, true)
            | some ls =>
              let r3 := insertSeq (fun l : DoseLog => l.id) d2.doseLogs ls
              ({ db := some { d2 with doseLogs := r3.1 } }, r3.2)

/-- `MedTrackApp.handleResetApp()` (app.js lines 1592-1640), after both
confirmations: `clearAllData()` then `addPerson` of a fresh default person
named `Me`. -/
def handleResetAppS (s : Storage) (newId : String) : Storage × Bool :=
  let r := clearAllDataS s
  if !r.2 then (r.1, false)
  else addPersonS r.1 { id := newId, name := "Me" }

/-- `MedTrackStorage.getSetting(key)` result: `request.result?.value`,
`undefined` when the key is absent. -/
def getSettingS (settings : List Setting) (key : String) : Option SVal :=
  (settings.find? (fun x => x.id == key)).map (fun x => x.value)

/-- JavaScript truthiness of a setting value (`undefined`, `false` and `0`
are falsy). -/
def truthy (v : Option SVal) : Bool :=
  match v with
  | none => false
  | some (.b b) => b
  | some (.n t) => t != 0

/-- Numeric coercion used by `Date.now() - lastReminder`. -/
def svalNum (v : SVal) : Int :=
  match v with
  | .b b => if b then 1 else 0
  | .n t => t

/-- 30 days in milliseconds. -/
def thirtyDaysInMs : Int := 30 * 24 * 60 * 60 * 1000

/-- `MedTrackApp.checkBackupReminder()` (app.js lines 1572-1590) as the pure
reminder-due decision: `true` exactly when the code reaches the
`setTimeout(confirm(...))` branch.  `now` is `Date.now()` in ms. -/
def checkBackupReminder (settings : List Setting) (now : Int) : Bool :=
  if !(truthy (getSettingS settings "backupReminder")) then false
  else
    -- !lastReminder || (Date.now() - lastReminder > thirtyDaysInMs)
    match getSettingS settings "lastBackupReminder" with
    | none => true
    | some v => if !(truthy (some v)) then true else decide (now - svalNum v > thirtyDaysInMs)

/-! ## Concrete fixtures used by witnesses and counterexamples -/

/-- Fixture: the spec's biweekly example rule (`n = 2`, Mondays, anchored at
Monday 2026-01-05 = epoch day 20458). -/
def rec4 : Recurrence :=
  { type := "everyNWeeks", days := some [1], n := some 2, anchor := some 20458 }

/-- Fixture: the spec's clamped monthly example rule (`dayOfMonth = 31`). -/
def rec5 : Recurrence :=
  { type := "monthly", mode := some "date", dayOfMonth := some 31 }

/-- Fixture: the spec's last-Friday example rule. -/
def rec6 : Recurrence :=
  { type := "monthly", mode := some "weekday", week := some (-1), dow := some 5 }

/-- Fixture: a recurrence object with an unrecognized `type` tag. -/
def rec3 : Recurrence := { type := "biweekly" }

/-- Fixture: a `monthly` recurrence with an unrecognized `mode`. -/
def rec3m : Recurrence := { type := "monthly", mode := some "weird" }

/-- Fixture: an initialized store holding one person. -/
def s1 : Storage := { db := some { people := [{ id := "p1", name := "Alice" }] } }

/-- Fixture: an import document whose `people` array is missing. -/
def docNoPeople : ImportDoc := { medications := some [] }

/-- Fixture: an import document whose `medications` array is missing. -/
def docNoMeds : ImportDoc := { people := some [{ id := "p2", name := "Bob" }] }

/-- Fixture: an initialized store with one medication and one dose log that
references it. -/
def s2 : Storage :=
  { db := some { medications := [{ id := "m1", name := "Aspirin" }],
                 doseLogs := [{ id := "l1", medicationId := "m1" }] } }

/-! ## Helper lemmas -/

/-- Every value of `mondayOf` is a Monday: it decomposes as seven times its
week index plus the Monday residue 4 (day 0 = Thursday). -/
theorem mondayOf_decomp (z : Int) : mondayOf z = 7 * weekIndex z + 4 := by
  unfold weekIndex mondayOf getDay
  omega

/-! ## Claim C4 -/

/-- C4: for a medication with recurrence `EveryNWeeks{n, days, anchor}`
(n ≥ 1, anchor a nonzero timestamp), `isScheduledOn` returns false when the
date's day of week is not in `days`, and otherwise returns true exactly when
the Monday-aligned week index of the date differs from the Monday-aligned
week index of the anchor by a multiple of `n` — including dates before the
anchor. -/
theorem C4_everyNWeeks_schedule (now z a n : Int) (ds : List Int)
    (med : Medication) (rec : Recurrence) (hmed : med.recurrence = some rec)
    (htype : rec.type = "everyNWeeks") (hdays : rec.days = some ds)
    (hn : rec.n = some n) (hn1 : 1 ≤ n) (hanchor : rec.anchor = some a)
    (ha : a ≠ 0) :
    isScheduledOn now med z = true ↔
      getDay z ∈ ds ∧ (n ∣ (weekIndex z - weekIndex a)) := by
  have hz := mondayOf_decomp z
  have hA := mondayOf_decomp a
  have hq : (mondayOf z - mondayOf a) / 7 = weekIndex z - weekIndex a := by omega
  have hne : (n == 0) = false := by simp; omega
  have ha' : (a != 0) = true := by simp [ha]
  have e1 : (("everyNWeeks" : String) == "daily") = false := by decide
  have e2 : (("everyNWeeks" : String) == "weekly") = false := by decide
  have e3 : (("everyNWeeks" : String) == "everyNWeeks") = true := by decide
  simp only [isScheduledOn, hmed, htype, hdays, hn, hanchor, jsOr, ha', e1, e2, e3,
    Bool.false_eq_true, Bool.true_eq_false, if_true, if_false]
  cases hct : ds.contains (getDay z) with
  | false =>
    have hmem : ¬ getDay z ∈ ds := by simpa using hct
    simp only [Bool.not_false, if_true, Bool.false_eq_true, false_iff]
    exact fun h => hmem h.1
  | true =>
    have hmem : getDay z ∈ ds := by simpa using hct
    simp only [hct, Bool.not_true, Bool.false_eq_true, if_false, hne, hq]
    rw [beq_iff_eq]
    exact ⟨fun h => ⟨hmem, Int.dvd_iff_emod_eq_zero.mpr h⟩,
      fun h => Int.dvd_iff_emod_eq_zero.mp h.2⟩

/-- Witness for C4, instantiating the spec's own example: `n = 2`,
`days = {Monday}`, anchor Monday 2026-01-05 (day 20458); the Monday two weeks
later (day 20472, week W2) is due. -/
theorem C4_witness :
    isScheduledOn 0 { frequency := "scheduled", recurrence := some rec4 } 20472 = true := by
  have h := C4_everyNWeeks_schedule 0 20472 20458 2 [1]
    { frequency := "scheduled", recurrence := some rec4 } rec4 rfl rfl rfl rfl
    (by decide) rfl (by decide)
  exact h.mpr ⟨by decide, ⟨1, by decide⟩⟩

/-! ## Claim C5 -/

/-- C5: for a medication with recurrence `Monthly.ByDate{dayOfMonth}`,
`isScheduledOn` returns true exactly when the date's day of month is within
one day of `effective = min(dayOfMonth, days in the date's month)` — the
clamped target with a ±1-day window and no wraparound into the next month. -/
theorem C5_monthlyByDate_schedule (now z t : Int) (med : Medication)
    (rec : Recurrence) (hmed : med.recurrence = some rec)
    (htype : rec.type = "monthly") (hmode : rec.mode = some "date")
    (hdom : rec.dayOfMonth = some t) :
    isScheduledOn now med z = true ↔
      (getDate z - min t (lastDayOfMonth z)).natAbs ≤ 1 := by
  have e1 : (("monthly" : String) == "daily") = false := by decide
  have e2 : (("monthly" : String) == "weekly") = false := by decide
  have e3 : (("monthly" : String) == "everyNWeeks") = false := by decide
  have e4 : (("monthly" : String) == "monthly") = true := by decide
  have m1 : ((some "date" : Option String) == some "date") = true := by decide
  simp only [isScheduledOn, hmed, htype, hmode, hdom, e1, e2, e3, e4, m1,
    Bool.false_eq_true, if_true, if_false]
  exact decide_eq_true_iff

/-- Witness for C5, instantiating the spec's own example: `dayOfMonth = 31`
in April 2026 (30 days); day 29 (epoch day 20572) is due since the target
clamps to 30 and |29 - 30| ≤ 1. -/
theorem C5_witness :
    isScheduledOn 0 { frequency := "scheduled", recurrence := some rec5 } 20572 = true := by
  have h := C5_monthlyByDate_schedule 0 20572 31
    { frequency := "scheduled", recurrence := some rec5 } rec5 rfl rfl rfl rfl
  exact h.mpr (by decide)

/-! ## Claim C6 -/

/-- C6: for a medication with recurrence `Monthly.ByWeekday{week, dow}`,
`isScheduledOn` is false unless the date's day of week equals `dow`; with
`week = -1` it is true exactly when the date is the last such weekday of its
month (adding 7 days crosses into the next month), and with `week` in 1..4
exactly when `ceil(day / 7) = week`. -/
theorem C6_monthlyByWeekday_schedule (now z w dw : Int) (med : Medication)
    (rec : Recurrence) (hmed : med.recurrence = some rec)
    (htype : rec.type = "monthly") (hmode : rec.mode = some "weekday")
    (hweek : rec.week = some w) (hdow : rec.dow = some dw) :
    (w = -1 →
      (isScheduledOn now med z = true ↔
        (getDay z = dw ∧ getMonth (z + 7) ≠ getMonth z)))
    ∧ (1 ≤ w → w ≤ 4 →
      (isScheduledOn now med z = true ↔
        (getDay z = dw ∧ (getDate z + 6) / 7 = w))) := by
  have e1 : (("monthly" : String) == "daily") = false := by decide
  have e2 : (("monthly" : String) == "weekly") = false := by decide
  have e3 : (("monthly" : String) == "everyNWeeks") = false := by decide
  have e4 : (("monthly" : String) == "monthly") = true := by decide
  have m1 : ((some "weekday" : Option String) == some "date") = false := by decide
  have m2 : ((some "weekday" : Option String) == some "weekday") = true := by decide
  simp only [isScheduledOn, hmed, htype, hmode, hweek, hdow, e1, e2, e3, e4, m1, m2,
    Bool.false_eq_true, if_true, if_false]
  constructor
  · intro hw
    subst hw
    by_cases hd : getDay z = dw
    · have hb : ((some dw : Option Int) != some (getDay z)) = false := by
        simp [hd]
      have hw1 : ((some (-1) : Option Int) == some (-1)) = true := by decide
      simp only [hb, Bool.false_eq_true, if_false, hw1, if_true]
      simp [hd, Bool.not_eq_true', beq_eq_false_iff_ne]
    · have hb : ((some dw : Option Int) != some (getDay z)) = true := by
        simp only [bne_iff_ne, ne_eq, Option.some.injEq]
        exact fun h => hd h.symm
      simp only [hb, if_true]
      simp [hd]
  · intro h1 h4
    have hwne : ((some w : Option Int) == some (-1)) = false := by
      simp only [beq_eq_false_iff_ne, ne_eq, Option.some.injEq]
      omega
    by_cases hd : getDay z = dw
    · have hb : ((some dw : Option Int) != some (getDay z)) = false := by
        simp [hd]
      simp only [hb, Bool.false_eq_true, if_false, hwne, if_false]
      rw [beq_iff_eq]
      simp only [Option.some.injEq]
      exact ⟨fun h => ⟨hd, h.symm⟩, fun h => h.2.symm⟩
    · have hb : ((some dw : Option Int) != some (getDay z)) = true := by
        simp only [bne_iff_ne, ne_eq, Option.some.injEq]
        exact fun h => hd h.symm
      simp only [hb, if_true]
      simp [hd]

/-- Witness for C6, instantiating the spec's own example: last Friday with
five Fridays in the month — 2026-05-29 (epoch day 20602), the fifth Friday of
May 2026, is due. -/
theorem C6_witness :
    isScheduledOn 0 { frequency := "scheduled", recurrence := some rec6 } 20602 = true := by
  have h := C6_monthlyByWeekday_schedule 0 20602 (-1) 5
    { frequency := "scheduled", recurrence := some rec6 } rec6 rfl rfl rfl rfl rfl
  exact (h.1 rfl).mpr ⟨by decide, by decide⟩

/-! ## Claim C3 -/

/-- Counterexample to C3 as stated: a recurrence whose `type` tag matches no
known kind does NOT evaluate as Daily/always-due — `isScheduledOn` returns
`false` for it, not `true`. -/
theorem C3_counterexample :
    isScheduledOn 0 { frequency := "scheduled", recurrence := some rec3 } 0 = false := by
  decide

/-- C3 amended: a recurrence object failing to match any known kind (an
unrecognized `type` tag, or `type = monthly` with an unrecognized `mode`)
never makes `isScheduledOn` throw — evaluation is total — but the fallback is
`false` (never due), not Daily/always-due. -/
theorem C3_amended_unrecognized_false (now z : Int) (med : Medication)
    (rec : Recurrence) (hmed : med.recurrence = some rec)
    (h : (rec.type ≠ "daily" ∧ rec.type ≠ "weekly" ∧ rec.type ≠ "everyNWeeks" ∧
          rec.type ≠ "monthly")
       ∨ (rec.type = "monthly" ∧ rec.mode ≠ some "date" ∧ rec.mode ≠ some "weekday")) :
    isScheduledOn now med z = false := by
  rcases h with ⟨h1, h2, h3, h4⟩ | ⟨ht, hm1, hm2⟩
  · have b1 : (rec.type == "daily") = false := beq_eq_false_iff_ne.mpr h1
    have b2 : (rec.type == "weekly") = false := beq_eq_false_iff_ne.mpr h2
    have b3 : (rec.type == "everyNWeeks") = false := beq_eq_false_iff_ne.mpr h3
    have b4 : (rec.type == "monthly") = false := beq_eq_false_iff_ne.mpr h4
    simp only [isScheduledOn, hmed, b1, b2, b3, b4, Bool.false_eq_true, if_false]
  · have e1 : (("monthly" : String) == "daily") = false := by decide
    have e2 : (("monthly" : String) == "weekly") = false := by decide
    have e3 : (("monthly" : String) == "everyNWeeks") = false := by decide
    have e4 : (("monthly" : String) == "monthly") = true := by decide
    have b1 : (rec.mode == some "date") = false := beq_eq_false_iff_ne.mpr hm1
    have b2 : (rec.mode == some "weekday") = false := beq_eq_false_iff_ne.mpr hm2
    simp only [isScheduledOn, hmed, ht, e1, e2, e3, e4, b1, b2,
      Bool.false_eq_true, if_false, if_true]

/-- Witness for the amended C3, at the monthly-with-unknown-mode corner. -/
theorem C3_amended_witness :
    isScheduledOn 0 { frequency := "scheduled", recurrence := some rec3m } 5 = false := by
  exact C3_amended_unrecognized_false 0 5
    { frequency := "scheduled", recurrence := some rec3m } rec3m rfl
    (Or.inr ⟨rfl, by decide, by decide⟩)

/-! ## Claim C7 -/

/-- C7: a legacy medication record carrying a bare `days = [1,2,3,4,5]` array
and no `recurrence` field evaluates identically under `isScheduledOn` to a
medication with `recurrence = Weekly{days = [1,2,3,4,5]}` on every date, and
`getRecurrenceText` renders the same string for both, which carries the
`weekdays` label; a legacy record whose `days` is absent or empty evaluates
as Daily (always due). -/
theorem C7_legacy_weekday_migration (times : List String) (now z : Int) :
    (isScheduledOn now
        { frequency := "scheduled", times := times, days := some [1, 2, 3, 4, 5] } z
      = isScheduledOn now
        { frequency := "scheduled", times := times,
          recurrence := some { type := "weekly", days := some [1, 2, 3, 4, 5] } } z)
    ∧ (getRecurrenceText
        { frequency := "scheduled", times := times, days := some [1, 2, 3, 4, 5] }
      = getRecurrenceText
        { frequency := "scheduled", times := times,
          recurrence := some { type := "weekly", days := some [1, 2, 3, 4, 5] } })
    ∧ (∃ tx, getRecurrenceText
        { frequency := "scheduled", times := times, days := some [1, 2, 3, 4, 5] }
        = tx ++ " weekdays")
    ∧ isScheduledOn now { frequency := "scheduled", times := times } z = true
    ∧ isScheduledOn now { frequency := "scheduled", times := times, days := some [] } z = true := by
  refine ⟨rfl, rfl, ⟨_, rfl⟩, rfl, rfl⟩

/-! ## Claim C1 -/

/-- Counterexample to C1 as stated: importing a document without a `people`
array into a store holding one person does reject, but the `people`
collection is NOT the same afterwards — the destructive clear has already
emptied it. -/
theorem C1_counterexample :
    (importDataS s1 docNoPeople).2 = false
    ∧ (importDataS s1 docNoPeople).1.db.map DB.people = some []
    ∧ s1.db.map DB.people = some [{ id := "p1", name := "Alice" }] := by
  decide

/-- C1 amended: for every import document missing `people` or `medications`,
`importData` rejects — but only after clearing the three collections, so no
rollback happens: afterwards `medications` and `doseLogs` are empty, and when
`people` was the missing array the `people` collection is empty as well
(when only `medications` is missing, `people` holds the snapshot's people
inserted before the failure). -/
theorem C1_amended_reject_after_clear (s : Storage) (d : DB) (doc : ImportDoc)
    (hdb : s.db = some d)
    (h : doc.people = none ∨ doc.medications = none) :
    (importDataS s doc).2 = false
    ∧ (importDataS s doc).1.db.map DB.medications = some []
    ∧ (importDataS s doc).1.db.map DB.doseLogs = some []
    ∧ (doc.people = none → (importDataS s doc).1.db.map DB.people = some []) := by
  simp only [importDataS, hdb]
  rcases h with hp | hm
  · simp [hp]
  · cases hp : doc.people with
    | none => simp
    | some ps =>
      cases hr : (insertSeq (fun p => p.id) ([] : List Person) ps).2 with
      | false => simp [hr, hp]
      | true => simp [hr, hp, hm]

/-- Witness for the amended C1, at a document missing only `medications`. -/
theorem C1_witness :
    (importDataS s1 docNoMeds).2 = false
    ∧ (importDataS s1 docNoMeds).1.db.map DB.medications = some []
    ∧ (importDataS s1 docNoMeds).1.db.map DB.doseLogs = some [] := by
  have h := C1_amended_reject_after_clear s1
    { people := [{ id := "p1", name := "Alice" }] } docNoMeds rfl (Or.inr rfl)
  exact ⟨h.1, h.2.1, h.2.2.1⟩

/-! ## Claim C2 -/

/-- Counterexample to C2 as stated: `deleteMedication("m1")` completes
(resolves), removes the medication record — and the dose log whose
`medicationId` is `"m1"` is still in the `doseLogs` collection. -/
theorem C2_counterexample :
    deleteMedicationS s2 "m1" =
      ({ db := some { doseLogs := [{ id := "l1", medicationId := "m1" }] } }, true) := by
  decide

/-- C2 amended: `deleteMedication(id)` removes exactly the medication record
with that key and touches nothing else — in particular the dose logs whose
`medicationId` equals `id` are NOT deleted; the `doseLogs` collection is
unchanged by the call. -/
theorem C2_amended_no_log_cascade (s : Storage) (d : DB) (id : String)
    (hdb : s.db = some d) :
    deleteMedicationS s id =
      ({ db := some { d with medications := d.medications.filter (fun m => m.id != id) } },
       true) := by
  simp [deleteMedicationS, hdb]

/-- Witness for the amended C2: deleting an absent id `"m2"` resolves and
leaves both collections as they were. -/
theorem C2_witness :
    deleteMedicationS s2 "m2" =
      ({ db := some { medications := [{ id := "m1", name := "Aspirin" }],
                      doseLogs := [{ id := "l1", medicationId := "m1" }] } }, true) := by
  rw [C2_amended_no_log_cascade s2
    { medications := [{ id := "m1", name := "Aspirin" }],
      doseLogs := [{ id := "l1", medicationId := "m1" }] } "m2" rfl]
  decide

/-! ## Claim C8 -/

/-- Counterexample to C8 as stated: before initialization, listing people
rejects with `NotInitialized`, but listing dose logs does NOT behave the same
way — `getDoseLogs` swallows the error and silently resolves with `[]`. -/
theorem C8_counterexample :
    getPeopleS { db := none } = .error .notInitialized
    ∧ getDoseLogsS { db := none } = .ok [] := by
  exact ⟨rfl, rfl⟩

/-- C8 amended: before storage initialization completes, `getAll`-based list
operations on `people`, `medications` and `settings` fail with
`NotInitialized`, but `getDoseLogs` catches the error and resolves with the
empty list instead of propagating the failure. -/
theorem C8_amended_doseLogs_swallow (s : Storage) (h : s.db = none) :
    getPeopleS s = .error .notInitialized
    ∧ getMedicationsS s = .error .notInitialized
    ∧ getSettingsS s = .error .notInitialized
    ∧ getDoseLogsS s = .ok [] := by
  simp [getPeopleS, getMedicationsS, getSettingsS, getDoseLogsS, getAllC, h]

/-- Witness for the amended C8. -/
theorem C8_witness :
    getMedicationsS { db := none } = .error .notInitialized
    ∧ getSettingsS { db := none } = .error .notInitialized := by
  exact ⟨(C8_amended_doseLogs_swallow { db := none } rfl).2.1,
    (C8_amended_doseLogs_swallow { db := none } rfl).2.2.1⟩

/-! ## Claim C9 -/

/-- C9: the backup-reminder policy is a pure function of the settings and the
clock: with a well-formed `lastBackupReminder` (absent, or a positive epoch
timestamp `t`), a reminder is due exactly when the `backupReminder` setting
is truthy AND (`lastBackupReminder` is unset OR `now - t` exceeds 30 days). -/
theorem C9_backup_reminder_policy (settings : List Setting) (now t : Int)
    (hlast : getSettingS settings "lastBackupReminder" = none ∨
      (getSettingS settings "lastBackupReminder" = some (SVal.n t) ∧ 0 < t)) :
    checkBackupReminder settings now = true ↔
      (truthy (getSettingS settings "backupReminder") = true ∧
        (getSettingS settings "lastBackupReminder" = none ∨
          now - t > thirtyDaysInMs)) := by
  unfold checkBackupReminder
  cases hb : truthy (getSettingS settings "backupReminder") with
  | false => simp [hb]
  | true =>
    simp only [hb, Bool.not_true, Bool.false_eq_true, if_false]
    rcases hlast with hl | ⟨hl, ht⟩
    · simp [hl]
    · have htr : truthy (some (SVal.n t)) = true := by
        simp only [truthy, bne_iff_ne, ne_eq]
        omega
      simp [hl, htr, svalNum]

/-- Witness for C9: reminders enabled, last reminder unset — due. -/
theorem C9_witness :
    checkBackupReminder [{ id := "backupReminder", value := SVal.b true }] 1000 = true := by
  have h := C9_backup_reminder_policy
    [{ id := "backupReminder", value := SVal.b true }] 1000 1 (Or.inl rfl)
  exact h.mpr ⟨by decide, Or.inl rfl⟩

/-! ## Claim C10 -/

/-- C10: the `settings` collection is untouched by the whole-dataset
destructive operations: `clearAllData`, `importData` (on any document,
malformed or not) and the app reset leave the stored settings exactly as
they were. -/
theorem C10_settings_frame (s : Storage) (doc : ImportDoc) (pid : String) :
    (clearAllDataS s).1.db.map DB.settings = s.db.map DB.settings
    ∧ (importDataS s doc).1.db.map DB.settings = s.db.map DB.settings
    ∧ (handleResetAppS s pid).1.db.map DB.settings = s.db.map DB.settings := by
  cases hdb : s.db with
  | none =>
    simp [clearAllDataS, importDataS, handleResetAppS, addPersonS, hdb]
  | some d =>
    refine ⟨by simp [clearAllDataS, hdb], ?_, ?_⟩
    · simp only [importDataS, hdb]
      cases doc.people with
      | none => simp
      | some ps =>
        cases hr : (insertSeq (fun p => p.id) ([] : List Person) ps).2 with
        | false => simp [hr]
        | true =>
          cases doc.medications with
          | none => simp [hr]
          | some ms =>
            cases hr2 : (insertSeq (fun m => m.id) ([] : List Medication) ms).2 with
            | false => simp [hr, hr2]
            | true =>
              cases doc.doseLogs with
              | none => simp [hr, hr2]
              | some ls => simp [hr, hr2]
    · simp [handleResetAppS, clearAllDataS, addPersonS, hdb]

end MedTrack

